import Mathlib

/-!
# Resort360 — verification of the date-interval / pricing / availability core

Shallow embedding of the interval-overlap, pricing, availability, maintenance
and statistics logic of the resort360 backend
(`src/controllers/room.controller.js`, `src/controllers/booking.controller.js`,
`src/models/room.model.js`, `src/models/booking.model.js`).

Dates are modelled as integers (milliseconds since the epoch, as produced by
JavaScript `Date` subtraction).  Prices and percentages are modelled as
rationals, exact for every computation the code performs.  Where the
JavaScript code can produce `NaN`, `Infinity` or read an `undefined` field,
a dedicated `JSNum` type models those values explicitly.
-/

namespace Resort360

/-- Milliseconds per day, the divisor `1000 * 60 * 60 * 24` used throughout the
controllers to turn a date difference into a number of nights/days. -/
def msPerDay : ℤ := 1000 * 60 * 60 * 24

/-- JavaScript `Math.ceil(x / d)` on integer `x` and positive integer `d`:
the ceiling of the exact quotient.  `Int` division `/` is floor division, and
`⌈q⌉ = -⌊-q⌋`. -/
def jsCeilDiv (x d : ℤ) : ℤ := -((-x) / d)

/-- A date interval.  The schema field called `end` in the spec is named `endD`
here because `end` is a reserved word in Lean. -/
structure DateInterval where
  start : ℤ
  endD : ℤ
deriving DecidableEq

/-- The overlap predicate the controllers repeat inline
(`room.controller.js` lines 38-39, 192-193, 601-602, 1005-1006, 1066-1067,
1203-1204, 1266-1267): `a.start <= b.end && a.end >= b.start`, with inclusive
boundaries. -/
def overlaps (a b : DateInterval) : Bool :=
  decide (a.start ≤ b.endD) && decide (a.endD ≥ b.start)

/-- Booking status values, from `BOOKING_STATUS` in `utils/constants.js`. -/
inductive BookingStatus where
  | pending
  | confirmed
  | checkedIn
  | checkedOut
  | cancelled
deriving DecidableEq

/-- Room status values, from the `status` enum of the room schema. -/
inductive RoomStatus where
  | available
  | occupied
  | maintenance
  | reserved
  | outOfOrder
deriving DecidableEq

/-- Maintenance record status values, from the maintenance record schema. -/
inductive MaintenanceStatus where
  | scheduled
  | inProgress
  | completed
  | cancelled
deriving DecidableEq

/-- Room types, from the `type` enum of the room schema. -/
inductive RoomType where
  | standard
  | deluxe
  | suite
  | presidential
deriving DecidableEq

/-- Discount types, from the `discounts.type` enum of the room schema. -/
inductive DiscountType where
  | earlyBird
  | lastMinute
  | longStay
  | special
deriving DecidableEq

/-- A booking document (`models/booking.model.js`), restricted to the fields
the verified logic reads: `checkIn`, `checkOut`, `status`, `totalPrice`,
`guest`.  The schema defines `totalPrice`; it defines no field named
`totalAmount`. -/
structure Booking where
  checkIn : ℤ
  checkOut : ℤ
  status : BookingStatus
  totalPrice : ℚ
  guest : ℕ
deriving DecidableEq

/-- A seasonal pricing entry (`seasonalPricing` array of the room schema). -/
structure SeasonalPricing where
  startDate : ℤ
  endDate : ℤ
  price : ℚ
deriving DecidableEq

/-- A discount entry (`discounts` array of the room schema).  `minimumStay`
is carried but never read by the pricing virtual. -/
structure Discount where
  dtype : DiscountType
  percentage : ℚ
  validFrom : ℤ
  validUntil : ℤ
  minimumStay : ℤ
deriving DecidableEq

/-- A maintenance record (`maintenanceRecordSchema`), restricted to the fields
the verified logic reads (`type`, `startDate`, `endDate`, `status`);
`description`, `cost`, `performedBy`, `notes` and the timestamps are carried
by the real schema but never read by any verified routine. -/
structure MaintenanceRecord where
  mtype : String
  startDate : ℤ
  endDate : ℤ
  status : MaintenanceStatus
deriving DecidableEq

/-- A rating entry (`ratings` array of the room schema). -/
structure Rating where
  score : ℚ
  guest : ℕ
  date : ℤ
deriving DecidableEq

/-- A room document (`models/room.model.js`), restricted to the fields the
verified logic reads.  `bookings` is the virtual populate of the bookings
referencing this room. -/
structure Room where
  roomNumber : String
  rtype : RoomType
  pricePerNight : ℚ
  basePrice : ℚ
  seasonalPricing : List SeasonalPricing
  discounts : List Discount
  status : RoomStatus
  maintenanceHistory : List MaintenanceRecord
  ratings : List Rating
  averageRating : ℚ
  bookings : List Booking
deriving DecidableEq

/-! ## Availability (`checkRoomAvailability`, room.controller.js 172-212) -/

/-- The bookings the `checkRoomAvailability` handler matches: the populate
`match` filter keeps every booking of the room with
`checkIn <= endDate && checkOut >= startDate` — with no condition on the
booking status. -/
def availabilityMatches (room : Room) (startDate endDate : ℤ) : List Booking :=
  room.bookings.filter fun b =>
    overlaps ⟨b.checkIn, b.checkOut⟩ ⟨startDate, endDate⟩

/-- `isAvailable` as computed by `checkRoomAvailability`:
`bookings.bookings.length === 0`. -/
def isAvailable (room : Room) (startDate endDate : ℤ) : Bool :=
  (availabilityMatches room startDate endDate).isEmpty

/-- Availability as the spec (§4.3) describes it, used only for comparison
with the source-derived `isAvailable`: no non-cancelled booking overlaps, no
scheduled or in-progress maintenance window overlaps, and the room is not
out-of-order. -/
def isAvailableSpec (room : Room) (startDate endDate : ℤ) : Bool :=
  (room.bookings.all fun b =>
    decide (b.status = .cancelled)
      || !overlaps ⟨b.checkIn, b.checkOut⟩ ⟨startDate, endDate⟩)
  && (room.maintenanceHistory.all fun m =>
    !(decide (m.status = .scheduled) || decide (m.status = .inProgress))
      || !overlaps ⟨m.startDate, m.endDate⟩ ⟨startDate, endDate⟩)
  && !(decide (room.status = .outOfOrder))

/-- A room whose only booking over days 2..5 is cancelled; no maintenance,
status available. -/
def roomCancelledOnly : Room :=
  { roomNumber := "101"
    rtype := .standard
    pricePerNight := 100
    basePrice := 100
    seasonalPricing := []
    discounts := []
    status := .available
    maintenanceHistory := []
    ratings := []
    averageRating := 0
    bookings := [{ checkIn := 2, checkOut := 5, status := .cancelled,
                   totalPrice := 300, guest := 7 }] }

/-- A room with no bookings, a scheduled maintenance window over days 2..5,
and status out-of-order. -/
def roomMaintOutOfOrder : Room :=
  { roomNumber := "102"
    rtype := .standard
    pricePerNight := 100
    basePrice := 100
    seasonalPricing := []
    discounts := []
    status := .outOfOrder
    maintenanceHistory := [{ mtype := "repair", startDate := 2, endDate := 5,
                             status := .scheduled }]
    ratings := []
    averageRating := 0
    bookings := [] }

/-- C1 (counterexample): the claimed equivalence fails in both directions.
`roomCancelledOnly` has only a cancelled booking overlapping candidate 3..6,
so the spec predicate says available, yet the code reports unavailable;
`roomMaintOutOfOrder` has an overlapping scheduled maintenance window and is
out-of-order, so the spec predicate says unavailable, yet the code reports
available. -/
theorem c1_counterexample :
    (isAvailableSpec roomCancelledOnly 3 6 = true
      ∧ isAvailable roomCancelledOnly 3 6 = false)
    ∧ (isAvailableSpec roomMaintOutOfOrder 3 6 = false
      ∧ isAvailable roomMaintOutOfOrder 3 6 = true) := by
  decide

/-- C1 (amended): `isAvailable(room, candidate)` returns true if and only if
no booking of the room — regardless of its status, cancelled included —
overlaps the candidate interval; maintenance windows and `room.status` are
not consulted at all. -/
theorem c1_amended_isAvailable_iff (room : Room) (startDate endDate : ℤ) :
    isAvailable room startDate endDate = true ↔
      ∀ b ∈ room.bookings,
        overlaps ⟨b.checkIn, b.checkOut⟩ ⟨startDate, endDate⟩ = false := by
  simp [isAvailable, availabilityMatches, List.isEmpty_iff,
    List.filter_eq_nil_iff]

/-- C7: overlap uses inclusive boundary semantics — `[1,5]` and `[5,10]`
merely touch at an endpoint yet count as overlapping, and
`checkRoomAvailability` rejects candidate stay `[5,10]` for a room with an
existing confirmed booking `[1,5]`. -/
theorem c7_inclusive_boundary :
    overlaps ⟨1, 5⟩ ⟨5, 10⟩ = true
      ∧ isAvailable
          { roomNumber := "103"
            rtype := .standard
            pricePerNight := 100
            basePrice := 100
            seasonalPricing := []
            discounts := []
            status := .available
            maintenanceHistory := []
            ratings := []
            averageRating := 0
            bookings := [{ checkIn := 1, checkOut := 5, status := .confirmed,
                           totalPrice := 400, guest := 3 }] }
          5 10 = false := by
  decide

/-- C8: the overlap predicate is symmetric on well-formed intervals
(`start < end`). -/
theorem c8_overlaps_symm (a b : DateInterval)
    (ha : a.start < a.endD) (hb : b.start < b.endD) :
    overlaps a b = overlaps b a := by
  simp only [overlaps, ge_iff_le]
  rw [Bool.and_comm]

/-- C8 witness: symmetry applied to the concrete well-formed intervals
`[1,5]` and `[5,10]`. -/
theorem c8_overlaps_symm_witness :
    (1 : ℤ) < 5 ∧ (5 : ℤ) < 10
      ∧ overlaps ⟨1, 5⟩ ⟨5, 10⟩ = overlaps ⟨5, 10⟩ ⟨1, 5⟩ :=
  ⟨by decide, by decide,
    c8_overlaps_symm ⟨1, 5⟩ ⟨5, 10⟩ (by decide) (by decide)⟩

/-! ## Price resolution (`currentPrice` virtual, room.model.js 194-215) -/

/-- `this.seasonalPricing.find(pricing => now >= pricing.startDate && now <=
pricing.endDate)`: the first seasonal entry whose interval contains `now`. -/
def seasonalMatch (sp : List SeasonalPricing) (now : ℤ) : Option SeasonalPricing :=
  sp.find? fun p => decide (now ≥ p.startDate) && decide (now ≤ p.endDate)

/-- `this.discounts.find(discount => now >= discount.validFrom && now <=
discount.validUntil)`: the first discount whose validity contains `now`. -/
def discountMatch (ds : List Discount) (now : ℤ) : Option Discount :=
  ds.find? fun d => decide (now ≥ d.validFrom) && decide (now ≤ d.validUntil)

/-- The second half of the `currentPrice` virtual: if an active discount was
found, `currentPrice = currentPrice * (1 - activeDiscount.percentage / 100)`,
else the base price is returned unchanged. -/
def applyActiveDiscount (ds : List Discount) (now : ℤ) (base : ℚ) : ℚ :=
  match discountMatch ds now with
  | some d => base * (1 - d.percentage / 100)
  | none => base

/-- The `currentPrice` virtual of the room schema: seasonal price if a
seasonal entry contains `now`, else `pricePerNight`, then at most the first
active discount applied. -/
def currentPrice (room : Room) (now : ℤ) : ℚ :=
  let base :=
    match seasonalMatch room.seasonalPricing now with
    | some p => p.price
    | none => room.pricePerNight
  applyActiveDiscount room.discounts now base

/-- Under the non-overlap invariant on seasonal entries, `find` returns the
(unique) entry containing `now`: any containing member is the found one. -/
theorem seasonalMatch_eq_of_mem (sp : List SeasonalPricing) (now : ℤ)
    (h : sp.Pairwise fun p q =>
      ¬(p.startDate ≤ q.endDate ∧ p.endDate ≥ q.startDate))
    (p : SeasonalPricing) (hp : p ∈ sp)
    (hc : p.startDate ≤ now ∧ now ≤ p.endDate) :
    seasonalMatch sp now = some p := by
  induction sp with
  | nil => cases hp
  | cons a tl ih =>
    rw [List.pairwise_cons] at h
    obtain ⟨ha, htl⟩ := h
    rcases List.mem_cons.mp hp with hpa | hptl
    · subst hpa
      simp [seasonalMatch, List.find?_cons, hc.1, hc.2]
    · by_cases hac : a.startDate ≤ now ∧ now ≤ a.endDate
      · exact absurd ⟨le_trans hac.1 hc.2, le_trans hc.1 hac.2⟩ (ha p hptl)
      · have hfalse : (decide (now ≥ a.startDate) && decide (now ≤ a.endDate))
            = false := by
          rcases not_and_or.mp hac with hlt | hlt <;> simp [hlt]
        have := ih htl hptl
        simpa [seasonalMatch, List.find?_cons, hfalse] using this

/-- C2: price resolution.  Under the seasonal non-overlap invariant:
(i) when a seasonal entry contains `asOf`, `currentPrice` is that entry's
price with at most one discount applied; (ii) with no containing entry it is
`pricePerNight` with at most one discount applied; (iii) the discount applied
is the first whose validity contains `asOf`, as `base * (1 - percentage/100)`,
never compounding a second matching discount; (iv) with no matching discount
the base is returned unchanged. -/
theorem c2_currentPrice (room : Room) (asOf : ℤ)
    (h : room.seasonalPricing.Pairwise fun p q =>
      ¬(p.startDate ≤ q.endDate ∧ p.endDate ≥ q.startDate)) :
    (∀ p ∈ room.seasonalPricing, p.startDate ≤ asOf → asOf ≤ p.endDate →
      currentPrice room asOf = applyActiveDiscount room.discounts asOf p.price)
    ∧ ((∀ p ∈ room.seasonalPricing, ¬(p.startDate ≤ asOf ∧ asOf ≤ p.endDate)) →
      currentPrice room asOf
        = applyActiveDiscount room.discounts asOf room.pricePerNight)
    ∧ (∀ (ds : List Discount) (t : ℤ) (base : ℚ) (i : ℕ) (d : Discount),
        ds[i]? = some d → d.validFrom ≤ t → t ≤ d.validUntil →
        (∀ j, j < i → ∀ d', ds[j]? = some d' →
          ¬(d'.validFrom ≤ t ∧ t ≤ d'.validUntil)) →
        applyActiveDiscount ds t base = base * (1 - d.percentage / 100))
    ∧ (∀ (ds : List Discount) (t : ℤ) (base : ℚ),
        (∀ d ∈ ds, ¬(d.validFrom ≤ t ∧ t ≤ d.validUntil)) →
        applyActiveDiscount ds t base = base) := by
  refine ⟨?_, ?_, ?_, ?_⟩
  · intro p hp h1 h2
    rw [currentPrice, seasonalMatch_eq_of_mem room.seasonalPricing asOf h p hp
      ⟨h1, h2⟩]
  · intro hnone
    have : seasonalMatch room.seasonalPricing asOf = none := by
      rw [seasonalMatch, List.find?_eq_none]
      intro p hp
      rcases not_and_or.mp (hnone p hp) with hlt | hlt <;> simp [hlt]
    rw [currentPrice, this]
  · intro ds t base i d hget h1 h2 hfirst
    induction ds generalizing i with
    | nil => simp at hget
    | cons a tl ih =>
      cases i with
      | zero =>
        rw [List.getElem?_cons_zero, Option.some_inj] at hget
        subst hget
        simp [applyActiveDiscount, discountMatch, List.find?_cons, h1, h2]
      | succ j =>
        rw [List.getElem?_cons_succ] at hget
        have hna : ¬(a.validFrom ≤ t ∧ t ≤ a.validUntil) :=
          hfirst 0 (Nat.succ_pos j) a (by rw [List.getElem?_cons_zero])
        have hfalse : (decide (t ≥ a.validFrom) && decide (t ≤ a.validUntil))
            = false := by
          rcases not_and_or.mp hna with hlt | hlt <;> simp [hlt]
        have htail := ih j hget fun k hk d' hd' =>
          hfirst (k + 1) (Nat.succ_lt_succ hk) d'
            (by rw [List.getElem?_cons_succ]; exact hd')
        simpa [applyActiveDiscount, discountMatch, List.find?_cons, hfalse]
          using htail
  · intro ds t base hnone
    have : discountMatch ds t = none := by
      rw [discountMatch, List.find?_eq_none]
      intro d hd
      rcases not_and_or.mp (hnone d hd) with hlt | hlt <;> simp [hlt]
    rw [applyActiveDiscount, this]

/-- A room with base nightly price 100, a seasonal price of 200 on days 1..30
and a 20% discount valid on days 1..30. -/
def roomSeasonalDiscount : Room :=
  { roomNumber := "201"
    rtype := .deluxe
    pricePerNight := 100
    basePrice := 100
    seasonalPricing := [{ startDate := 1, endDate := 30, price := 200 }]
    discounts := [{ dtype := .special, percentage := 20, validFrom := 1,
                    validUntil := 30, minimumStay := 0 }]
    status := .available
    maintenanceHistory := []
    ratings := []
    averageRating := 0
    bookings := [] }

/-- C2 witness: the pricing theorem applied to `roomSeasonalDiscount` on
day 15, together with the concrete evaluation 200 · (1 − 20/100) = 160. -/
theorem c2_currentPrice_witness :
    (roomSeasonalDiscount.seasonalPricing.Pairwise fun p q =>
      ¬(p.startDate ≤ q.endDate ∧ p.endDate ≥ q.startDate))
    ∧ ((∀ p ∈ roomSeasonalDiscount.seasonalPricing,
        p.startDate ≤ 15 → (15 : ℤ) ≤ p.endDate →
        currentPrice roomSeasonalDiscount 15
          = applyActiveDiscount roomSeasonalDiscount.discounts 15 p.price)
      ∧ ((∀ p ∈ roomSeasonalDiscount.seasonalPricing,
          ¬(p.startDate ≤ 15 ∧ (15 : ℤ) ≤ p.endDate)) →
        currentPrice roomSeasonalDiscount 15
          = applyActiveDiscount roomSeasonalDiscount.discounts 15
              roomSeasonalDiscount.pricePerNight)
      ∧ (∀ (ds : List Discount) (t : ℤ) (base : ℚ) (i : ℕ) (d : Discount),
          ds[i]? = some d → d.validFrom ≤ t → t ≤ d.validUntil →
          (∀ j, j < i → ∀ d', ds[j]? = some d' →
            ¬(d'.validFrom ≤ t ∧ t ≤ d'.validUntil)) →
          applyActiveDiscount ds t base = base * (1 - d.percentage / 100))
      ∧ (∀ (ds : List Discount) (t : ℤ) (base : ℚ),
          (∀ d ∈ ds, ¬(d.validFrom ≤ t ∧ t ≤ d.validUntil)) →
          applyActiveDiscount ds t base = base))
    ∧ currentPrice roomSeasonalDiscount 15 = 160 :=
  ⟨by decide, c2_currentPrice roomSeasonalDiscount 15 (by decide), by
    simp [currentPrice, seasonalMatch, applyActiveDiscount, discountMatch,
      roomSeasonalDiscount, List.find?]
    norm_num⟩

/-! ## Booking creation (`createBooking`, booking.controller.js) -/

/-- `Math.ceil((checkOut - checkIn) / (1000 * 60 * 60 * 24))`. -/
def numberOfNights (checkIn checkOut : ℤ) : ℤ :=
  jsCeilDiv (checkOut - checkIn) msPerDay

/-- `totalPrice = numberOfNights * room.pricePerNight`: the flat nightly
price is used, not the `currentPrice` virtual. -/
def createBookingTotalPrice (room : Room) (checkIn checkOut : ℤ) : ℚ :=
  (numberOfNights checkIn checkOut : ℚ) * room.pricePerNight

/-- The booking document stored by `createBooking`, restricted to the
modelled fields; status defaults to pending. -/
def createBooking (room : Room) (guest : ℕ) (checkIn checkOut : ℤ) : Booking :=
  { checkIn := checkIn
    checkOut := checkOut
    status := .pending
    totalPrice := createBookingTotalPrice room checkIn checkOut
    guest := guest }

/-- `jsCeilDiv` computes the mathematical ceiling of the exact quotient. -/
theorem jsCeilDiv_eq_ceil (x : ℤ) (d : ℕ) :
    jsCeilDiv x (d : ℤ) = ⌈(x : ℚ) / (d : ℚ)⌉ := by
  have hx : (x : ℚ) / (d : ℚ) = -(((-x : ℤ) : ℚ) / ((d : ℕ) : ℚ)) := by
    push_cast
    ring
  rw [jsCeilDiv, hx, Int.ceil_neg, Rat.floor_intCast_div_natCast]

/-- C9: the stored `totalPrice` of a created booking is
`⌈(checkOut − checkIn) / 1 day⌉ · pricePerNight`, and is unchanged by any
seasonal pricing windows or discounts of the room. -/
theorem c9_createBooking_price (room : Room) (guest : ℕ)
    (checkIn checkOut : ℤ) (h : checkIn < checkOut) :
    (createBooking room guest checkIn checkOut).totalPrice
      = (⌈((checkOut - checkIn : ℤ) : ℚ) / (msPerDay : ℚ)⌉ : ℚ)
          * room.pricePerNight
    ∧ (∀ (sp : List SeasonalPricing) (ds : List Discount),
        (createBooking
            { room with seasonalPricing := sp, discounts := ds }
            guest checkIn checkOut).totalPrice
          = (createBooking room guest checkIn checkOut).totalPrice) := by
  constructor
  · have hms : msPerDay = ((86400000 : ℕ) : ℤ) := by decide
    rw [createBooking, createBookingTotalPrice, numberOfNights, hms,
      jsCeilDiv_eq_ceil]
    norm_num
  · intro sp ds
    rfl

/-- C9 witness: a stay of two days and one millisecond is billed as three
nights at the flat rate, for a room that also has a cheaper seasonal window
and an active discount. -/
theorem c9_createBooking_price_witness :
    (0 : ℤ) < 2 * msPerDay + 1
    ∧ ((createBooking roomSeasonalDiscount 7 0 (2 * msPerDay + 1)).totalPrice
        = (⌈((2 * msPerDay + 1 - 0 : ℤ) : ℚ) / (msPerDay : ℚ)⌉ : ℚ)
            * roomSeasonalDiscount.pricePerNight
      ∧ (∀ (sp : List SeasonalPricing) (ds : List Discount),
          (createBooking { roomSeasonalDiscount with seasonalPricing := sp, discounts := ds } 7 0 (2 * msPerDay + 1)).totalPrice
            = (createBooking roomSeasonalDiscount 7 0
                (2 * msPerDay + 1)).totalPrice))
    ∧ (createBooking roomSeasonalDiscount 7 0 (2 * msPerDay + 1)).totalPrice
        = 300 :=
  ⟨by decide,
    c9_createBooking_price roomSeasonalDiscount 7 0 (2 * msPerDay + 1)
      (by decide),
    by
      simp [createBooking, createBookingTotalPrice, numberOfNights,
        jsCeilDiv, msPerDay, roomSeasonalDiscount]
      norm_num⟩

/-! ## Maintenance scheduling (`manageRoomMaintenance`, room.controller.js
560-649) and pricing mutations (`addSeasonalPricing` 971-1037,
`addDiscount` 1169-1235) -/

/-- The error taxonomy of the controllers: `AppError(..., 400)` for malformed
input (`validation`), `AppError(..., 404)` for a missing room (`notFound`),
and the overlap-rejection errors (`conflict`): maintenance line 608, seasonal
pricing line 1010, discounts line 1208. -/
inductive RoomError where
  | validation
  | notFound
  | conflict
deriving DecidableEq

/-- The `conflictingBookings` query of `manageRoomMaintenance`
(room.controller.js 596-605): the room's bookings with
`status: $nin [cancelled]` and `checkIn <= end && checkOut >= start`. -/
def conflictingBookings (roomBookings : List Booking)
    (startDate endDate : ℤ) : List Booking :=
  roomBookings.filter fun b =>
    decide (b.status ≠ .cancelled)
      && overlaps ⟨b.checkIn, b.checkOut⟩ ⟨startDate, endDate⟩

/-- `manageRoomMaintenance` for a found room, with the room's bookings
(the `Booking.find` query result) supplied by the caller: validates the
payload, rejects when a non-cancelled booking overlaps the window,
otherwise appends the record and, if the new record is in-progress, sets the
room status to maintenance. -/
def manageRoomMaintenance (room : Room) (roomBookings : List Booking)
    (mtype : String) (startDate endDate : ℤ) (status : MaintenanceStatus) :
    Except RoomError Room :=
  if mtype = "" then .error .validation
  else if startDate ≥ endDate then .error .validation
  else if 0 < (conflictingBookings roomBookings startDate endDate).length
  then .error .conflict
  else .ok
    { room with
      maintenanceHistory := room.maintenanceHistory
        ++ [{ mtype := mtype, startDate := startDate, endDate := endDate,
              status := status }]
      status := if status = .inProgress then .maintenance
        else room.status }

/-- Membership in the conflicting-bookings query, unfolded. -/
theorem mem_conflictingBookings (roomBookings : List Booking) (s e : ℤ)
    (b : Booking) :
    b ∈ conflictingBookings roomBookings s e ↔
      b ∈ roomBookings ∧ b.status ≠ .cancelled
        ∧ overlaps ⟨b.checkIn, b.checkOut⟩ ⟨s, e⟩ = true := by
  simp [conflictingBookings, List.mem_filter, and_assoc]

/-- C5: for a valid window, scheduling maintenance fails with the conflict
error exactly when some non-cancelled booking overlaps the window; on success
the window is appended to the maintenance history and the room status becomes
`maintenance` exactly when the window is in-progress. -/
theorem c5_manageRoomMaintenance (room : Room) (roomBookings : List Booking)
    (mtype : String) (s e : ℤ) (st : MaintenanceStatus)
    (hm : mtype ≠ "") (hse : s < e) :
    (manageRoomMaintenance room roomBookings mtype s e st = .error .conflict ↔
      ∃ b ∈ roomBookings, b.status ≠ .cancelled
        ∧ overlaps ⟨b.checkIn, b.checkOut⟩ ⟨s, e⟩ = true)
    ∧ (∀ room',
        manageRoomMaintenance room roomBookings mtype s e st = .ok room' →
        room'.maintenanceHistory = room.maintenanceHistory
            ++ [{ mtype := mtype, startDate := s, endDate := e, status := st }]
        ∧ room'.status
            = (if st = .inProgress then .maintenance else room.status)) := by
  have hlt : ¬(s ≥ e) := not_le.mpr hse
  by_cases hc : 0 < (conflictingBookings roomBookings s e).length
  · constructor
    · rw [manageRoomMaintenance, if_neg hm, if_neg hlt, if_pos hc]
      refine iff_of_true rfl ?_
      rw [List.length_pos_iff_exists_mem] at hc
      obtain ⟨b, hb⟩ := hc
      rw [mem_conflictingBookings] at hb
      exact ⟨b, hb.1, hb.2.1, hb.2.2⟩
    · intro room' hok
      rw [manageRoomMaintenance, if_neg hm, if_neg hlt, if_pos hc] at hok
      exact Except.noConfusion hok
  · constructor
    · rw [manageRoomMaintenance, if_neg hm, if_neg hlt, if_neg hc]
      refine iff_of_false (fun h => Except.noConfusion h) ?_
      rintro ⟨b, hb, hbs, hbo⟩
      exact hc (List.length_pos_iff_exists_mem.mpr
        ⟨b, (mem_conflictingBookings roomBookings s e b).mpr ⟨hb, hbs, hbo⟩⟩)
    · intro room' hok
      rw [manageRoomMaintenance, if_neg hm, if_neg hlt, if_neg hc,
        Except.ok.injEq] at hok
      subst hok
      exact ⟨rfl, rfl⟩

/-- C5 witness: scheduling repair on days 3..6 conflicts for a room with a
confirmed booking 1..5, and succeeds on a room with only a cancelled booking
on those dates. -/
theorem c5_manageRoomMaintenance_witness :
    ("repair" : String) ≠ "" ∧ (3 : ℤ) < 6
    ∧ ((manageRoomMaintenance roomCancelledOnly
          [{ checkIn := 1, checkOut := 5, status := .confirmed,
             totalPrice := 400, guest := 3 }]
          "repair" 3 6 .scheduled = .error .conflict ↔
        ∃ b ∈ [({ checkIn := 1, checkOut := 5, status := .confirmed,
                  totalPrice := 400, guest := 3 } : Booking)],
          b.status ≠ .cancelled
            ∧ overlaps ⟨b.checkIn, b.checkOut⟩ ⟨3, 6⟩ = true)
      ∧ (∀ room',
          manageRoomMaintenance roomCancelledOnly
            [{ checkIn := 1, checkOut := 5, status := .confirmed,
               totalPrice := 400, guest := 3 }]
            "repair" 3 6 .scheduled = .ok room' →
          room'.maintenanceHistory = roomCancelledOnly.maintenanceHistory
              ++ [{ mtype := "repair", startDate := 3, endDate := 6,
                    status := .scheduled }]
          ∧ room'.status = (if MaintenanceStatus.scheduled = .inProgress
              then .maintenance else roomCancelledOnly.status))) :=
  ⟨by decide, by decide,
    c5_manageRoomMaintenance roomCancelledOnly
      [{ checkIn := 1, checkOut := 5, status := .confirmed,
         totalPrice := 400, guest := 3 }]
      "repair" 3 6 .scheduled (by decide) (by decide)⟩

/-- The per-room body of `addSeasonalPricing`: rejects when the new window
overlaps any existing seasonal entry
(`startDate <= pricing.endDate && endDate >= pricing.startDate`), otherwise
pushes the entry. -/
def addSeasonalPricingRoom (room : Room) (p : SeasonalPricing) :
    Except RoomError Room :=
  if room.seasonalPricing.any fun q =>
      overlaps ⟨p.startDate, p.endDate⟩ ⟨q.startDate, q.endDate⟩
  then .error .conflict
  else .ok { room with seasonalPricing := room.seasonalPricing ++ [p] }

/-- `addSeasonalPricing` including the date validation performed before the
per-room loop (`startDate >= endDate` is rejected). -/
def addSeasonalPricing (room : Room) (p : SeasonalPricing) :
    Except RoomError Room :=
  if p.startDate ≥ p.endDate then .error .validation
  else addSeasonalPricingRoom room p

/-- The per-room body of `addDiscount`: rejects when the new validity window
overlaps an existing discount of the same type
(`discount.type === discountData.type && validFrom <= discount.validUntil &&
validUntil >= discount.validFrom`), otherwise pushes the discount. -/
def addDiscountRoom (room : Room) (d : Discount) : Except RoomError Room :=
  if room.discounts.any fun q =>
      decide (q.dtype = d.dtype)
        && overlaps ⟨d.validFrom, d.validUntil⟩ ⟨q.validFrom, q.validUntil⟩
  then .error .conflict
  else .ok { room with discounts := room.discounts ++ [d] }

/-- `addDiscount` including the date validation performed before the
per-room loop (`validFrom >= validUntil` is rejected). -/
def addDiscount (room : Room) (d : Discount) : Except RoomError Room :=
  if d.validFrom ≥ d.validUntil then .error .validation
  else addDiscountRoom room d

/-- C6: for valid windows, `addSeasonalPricing` fails with the conflict error
exactly when the new interval overlaps an existing seasonal entry, and
`addDiscount` fails with the conflict error exactly when the new validity
overlaps an existing discount of the same type (an overlapping discount of a
different type is accepted, since the equivalence requires equal types);
on success the new entry is appended. -/
theorem c6_addSeasonalPricing_addDiscount (room : Room)
    (p : SeasonalPricing) (d : Discount)
    (hp : p.startDate < p.endDate) (hd : d.validFrom < d.validUntil) :
    (addSeasonalPricing room p = .error .conflict ↔
      ∃ q ∈ room.seasonalPricing,
        overlaps ⟨p.startDate, p.endDate⟩ ⟨q.startDate, q.endDate⟩ = true)
    ∧ (∀ room', addSeasonalPricing room p = .ok room' →
        room'.seasonalPricing = room.seasonalPricing ++ [p])
    ∧ (addDiscount room d = .error .conflict ↔
      ∃ q ∈ room.discounts, q.dtype = d.dtype
        ∧ overlaps ⟨d.validFrom, d.validUntil⟩ ⟨q.validFrom, q.validUntil⟩
            = true)
    ∧ (∀ room', addDiscount room d = .ok room' →
        room'.discounts = room.discounts ++ [d]) := by
  have hps : ¬(p.startDate ≥ p.endDate) := not_le.mpr hp
  have hds : ¬(d.validFrom ≥ d.validUntil) := not_le.mpr hd
  refine ⟨?_, ?_, ?_, ?_⟩
  · rw [addSeasonalPricing, if_neg hps, addSeasonalPricingRoom]
    by_cases hov : (room.seasonalPricing.any fun q =>
        overlaps ⟨p.startDate, p.endDate⟩ ⟨q.startDate, q.endDate⟩) = true
    · rw [if_pos hov]
      refine iff_of_true rfl ?_
      rw [List.any_eq_true] at hov
      exact hov
    · rw [if_neg hov]
      refine iff_of_false (fun h => Except.noConfusion h) ?_
      rw [List.any_eq_true] at hov
      exact hov
  · intro room' hok
    rw [addSeasonalPricing, if_neg hps, addSeasonalPricingRoom] at hok
    by_cases hov : (room.seasonalPricing.any fun q =>
        overlaps ⟨p.startDate, p.endDate⟩ ⟨q.startDate, q.endDate⟩) = true
    · rw [if_pos hov] at hok
      exact Except.noConfusion hok
    · rw [if_neg hov, Except.ok.injEq] at hok
      subst hok
      rfl
  · rw [addDiscount, if_neg hds, addDiscountRoom]
    by_cases hov : (room.discounts.any fun q =>
        decide (q.dtype = d.dtype)
          && overlaps ⟨d.validFrom, d.validUntil⟩
              ⟨q.validFrom, q.validUntil⟩) = true
    · rw [if_pos hov]
      refine iff_of_true rfl ?_
      rw [List.any_eq_true] at hov
      obtain ⟨q, hq, hqp⟩ := hov
      rw [Bool.and_eq_true, decide_eq_true_eq] at hqp
      exact ⟨q, hq, hqp.1, hqp.2⟩
    · rw [if_neg hov]
      refine iff_of_false (fun h => Except.noConfusion h) ?_
      rintro ⟨q, hq, hqt, hqo⟩
      exact hov (List.any_eq_true.mpr ⟨q, hq, by simp [hqt, hqo]⟩)
  · intro room' hok
    rw [addDiscount, if_neg hds, addDiscountRoom] at hok
    by_cases hov : (room.discounts.any fun q =>
        decide (q.dtype = d.dtype)
          && overlaps ⟨d.validFrom, d.validUntil⟩
              ⟨q.validFrom, q.validUntil⟩) = true
    · rw [if_pos hov] at hok
      exact Except.noConfusion hok
    · rw [if_neg hov, Except.ok.injEq] at hok
      subst hok
      rfl

/-- A new seasonal window overlapping the existing days 1..30 window. -/
def newSeasonal : SeasonalPricing := { startDate := 20, endDate := 40, price := 250 }

/-- A new early-bird discount overlapping the existing `special` discount of
`roomSeasonalDiscount` — a different type, so it must be accepted. -/
def newDiscount : Discount :=
  { dtype := .earlyBird, percentage := 10, validFrom := 10, validUntil := 20,
    minimumStay := 0 }

/-- C6 witness: the mutation contract applied to `roomSeasonalDiscount` with
a seasonal window overlapping the existing one and a discount overlapping an
existing discount of a different type; the conflict equivalence then shows
the seasonal add conflicts while the different-type discount add does not. -/
theorem c6_addSeasonalPricing_addDiscount_witness :
    newSeasonal.startDate < newSeasonal.endDate
    ∧ newDiscount.validFrom < newDiscount.validUntil
    ∧ ((addSeasonalPricing roomSeasonalDiscount newSeasonal
          = .error .conflict ↔
        ∃ q ∈ roomSeasonalDiscount.seasonalPricing,
          overlaps ⟨newSeasonal.startDate, newSeasonal.endDate⟩
            ⟨q.startDate, q.endDate⟩ = true)
      ∧ (∀ room',
          addSeasonalPricing roomSeasonalDiscount newSeasonal = .ok room' →
          room'.seasonalPricing
            = roomSeasonalDiscount.seasonalPricing ++ [newSeasonal])
      ∧ (addDiscount roomSeasonalDiscount newDiscount = .error .conflict ↔
        ∃ q ∈ roomSeasonalDiscount.discounts, q.dtype = newDiscount.dtype
          ∧ overlaps ⟨newDiscount.validFrom, newDiscount.validUntil⟩
              ⟨q.validFrom, q.validUntil⟩ = true)
      ∧ (∀ room',
          addDiscount roomSeasonalDiscount newDiscount = .ok room' →
          room'.discounts = roomSeasonalDiscount.discounts ++ [newDiscount])) :=
  ⟨by decide, by decide,
    c6_addSeasonalPricing_addDiscount roomSeasonalDiscount newSeasonal
      newDiscount (by decide) (by decide)⟩

/-! ## Statistics (`getRoomStatistics`, room.controller.js 215-305)

JavaScript arithmetic on this path can leave the rationals: dividing by zero
yields `NaN` or `±Infinity`, and reading an absent document field yields
`undefined`, which any arithmetic turns into `NaN`.  `JSNum` models exactly
those values. -/

/-- A JavaScript numeric value (or `undefined`) as it flows through the
statistics arithmetic. -/
inductive JSNum where
  | nan
  | inf
  | neginf
  | undef
  | val : ℚ → JSNum
deriving DecidableEq

/-- JavaScript `+` on `JSNum`: exact on finite values; `undefined` or `NaN`
poisons the result; infinities of the same sign are absorbed, opposite signs
give `NaN`. -/
def jsAdd : JSNum → JSNum → JSNum
  | .val a, .val b => .val (a + b)
  | .inf, .val _ => .inf
  | .val _, .inf => .inf
  | .neginf, .val _ => .neginf
  | .val _, .neginf => .neginf
  | .inf, .inf => .inf
  | .neginf, .neginf => .neginf
  | _, _ => .nan

/-- JavaScript `/` on `JSNum`: exact on finite values with nonzero divisor;
`0/0` is `NaN`, `x/0` is `±Infinity` for finite nonzero `x`; `undefined` or
`NaN` anywhere gives `NaN`; an infinite dividend over a finite divisor stays
infinite (with the divisor's sign). -/
def jsDiv : JSNum → JSNum → JSNum
  | .val a, .val b =>
    if b = 0 then
      if a = 0 then .nan else if 0 < a then .inf else .neginf
    else .val (a / b)
  | .inf, .val b => if 0 ≤ b then .inf else .neginf
  | .neginf, .val b => if 0 ≤ b then .neginf else .inf
  | _, _ => .nan

/-- JavaScript `*` on `JSNum`: exact on finite values; `undefined` or `NaN`
poisons the result; an infinity times zero is `NaN`, otherwise the sign
rule applies. -/
def jsMul : JSNum → JSNum → JSNum
  | .val a, .val b => .val (a * b)
  | .inf, .val a => if a = 0 then .nan else if 0 < a then .inf else .neginf
  | .val a, .inf => if a = 0 then .nan else if 0 < a then .inf else .neginf
  | .neginf, .val a => if a = 0 then .nan else if 0 < a then .neginf else .inf
  | .val a, .neginf => if a = 0 then .nan else if 0 < a then .neginf else .inf
  | .inf, .inf => .inf
  | .inf, .neginf => .neginf
  | .neginf, .inf => .neginf
  | .neginf, .neginf => .inf
  | _, _ => .nan

/-- A booking as seen by `getRoomStatistics` after `populate('room')`: the
booking document plus its room's type.  The booking schema defines
`totalPrice`; it defines no `totalAmount` field. -/
structure StatBooking where
  checkIn : ℤ
  checkOut : ℤ
  status : BookingStatus
  totalPrice : ℚ
  roomType : RoomType
deriving DecidableEq

/-- Line 259 reads `booking.totalAmount`.  The booking schema defines no
field of that name, so the member access evaluates to `undefined`. -/
def totalAmountField (_b : StatBooking) : JSNum :=
  JSNum.undef

/-- The booking query of `getRoomStatistics` (lines 232-236):
`checkIn: $gte start`, `checkOut: $lte end`, `status: $ne cancelled` — the
stay must lie entirely inside the period. -/
def statsSelected (bookings : List StatBooking) (startDate endDate : ℤ) :
    List StatBooking :=
  bookings.filter fun b =>
    decide (b.checkIn ≥ startDate) && decide (b.checkOut ≤ endDate)
      && decide (b.status ≠ .cancelled)

/-- `Math.ceil((booking.checkOut - booking.checkIn) / (1000*60*60*24))`. -/
def bookingDays (b : StatBooking) : ℤ :=
  jsCeilDiv (b.checkOut - b.checkIn) msPerDay

/-- The overall statistics record assembled by `getRoomStatistics`. -/
structure RoomStats where
  totalBookings : ℕ
  totalRevenue : JSNum
  totalOccupiedDays : ℤ
  occupancyRate : JSNum
deriving DecidableEq

/-- `getRoomStatistics` for a period and the full booking and room
collections (`totalRooms = Room.countDocuments()`):
`totalDays = ceil((end - start)/1 day)`,
`totalOccupiedDays`/`totalRevenue` accumulated over the selected bookings
(`stats.totalRevenue += booking.totalAmount`), and
`occupancyRate = totalOccupiedDays / (totalRooms * totalDays) * 100` with no
division-by-zero guard. -/
def getRoomStatistics (bookings : List StatBooking) (totalRooms : ℕ)
    (startDate endDate : ℤ) : RoomStats :=
  let selected := statsSelected bookings startDate endDate
  let totalDays := jsCeilDiv (endDate - startDate) msPerDay
  let occupied := selected.foldl (fun acc b => acc + bookingDays b) 0
  { totalBookings := selected.length
    totalRevenue := selected.foldl
      (fun acc b => jsAdd acc (totalAmountField b))
      (.val 0)
    totalOccupiedDays := occupied
    occupancyRate := jsMul
      (jsDiv (.val (occupied : ℚ)) (.val ((totalRooms : ℚ) * (totalDays : ℚ))))
      (.val 100) }

/-- The per-room-type accumulation of `stats.roomStats` (lines 264-277):
bookings, revenue (`+= booking.totalAmount`) and occupied days of the
selected bookings of one room type. -/
def roomTypeStats (bookings : List StatBooking) (startDate endDate : ℤ)
    (t : RoomType) : ℕ × JSNum × ℤ :=
  let sel := (statsSelected bookings startDate endDate).filter
    fun b => decide (b.roomType = t)
  (sel.length,
    sel.foldl (fun acc b => jsAdd acc (totalAmountField b)) (.val 0),
    sel.foldl (fun acc b => acc + bookingDays b) 0)

/-- A confirmed booking overlapping only the start boundary of the reporting
period `[0, 10 days]`: it intersects the period but starts before it. -/
def statBookingBoundary : StatBooking :=
  { checkIn := -msPerDay, checkOut := 2 * msPerDay, status := .confirmed,
    totalPrice := 300, roomType := .standard }

/-- A confirmed booking lying entirely inside the reporting period
`[0, 10 days]`, with stored `totalPrice` 500. -/
def statBookingInside : StatBooking :=
  { checkIn := msPerDay, checkOut := 3 * msPerDay, status := .confirmed,
    totalPrice := 500, roomType := .standard }

/-- C3 (failing input): over the period `[0, 10 days]` with five rooms, the
aggregation selects only the fully-contained booking — the non-cancelled
booking intersecting the period across its start boundary is dropped — and
the accumulated revenue is `NaN`, because line 259 reads the nonexistent
`totalAmount` field instead of the stored `totalPrice` (500 here); its
occupied days are nevertheless accumulated (2 nights). -/
theorem c3_getRoomStatistics_bug :
    statsSelected [statBookingBoundary, statBookingInside] 0 (10 * msPerDay)
        = [statBookingInside]
    ∧ (getRoomStatistics [statBookingBoundary, statBookingInside] 5 0
        (10 * msPerDay)).totalRevenue = .nan
    ∧ (getRoomStatistics [statBookingBoundary, statBookingInside] 5 0
        (10 * msPerDay)).totalRevenue ≠ .val 500
    ∧ (getRoomStatistics [statBookingBoundary, statBookingInside] 5 0
        (10 * msPerDay)).totalOccupiedDays = 2
    ∧ roomTypeStats [statBookingBoundary, statBookingInside] 0
        (10 * msPerDay) RoomType.standard = (1, .nan, 2) := by
  decide

/-- `0 / 0` is `NaN`. -/
theorem jsDiv_val_zero_zero : jsDiv (.val 0) (.val 0) = .nan := by
  simp [jsDiv]

/-- `a / 0 = Infinity` for finite positive `a`. -/
theorem jsDiv_val_pos_zero (a : ℚ) (ha : 0 < a) :
    jsDiv (.val a) (.val 0) = .inf := by
  simp [jsDiv, ha, ne_of_gt ha]

/-- Finite division with nonzero divisor is exact. -/
theorem jsDiv_val_val (a b : ℚ) (hb : b ≠ 0) :
    jsDiv (.val a) (.val b) = .val (a / b) := by
  simp [jsDiv, hb]

/-- `NaN * a = NaN` for finite `a`. -/
theorem jsMul_nan_val (a : ℚ) : jsMul .nan (.val a) = .nan := rfl

/-- `Infinity * a = Infinity` for finite positive `a`. -/
theorem jsMul_inf_val_pos (a : ℚ) (ha : 0 < a) :
    jsMul .inf (.val a) = .inf := by
  simp [jsMul, ha, ne_of_gt ha]

/-- The occupancy-rate expression of `getRoomStatistics`, unfolded. -/
theorem occupancyRate_def (bookings : List StatBooking) (totalRooms : ℕ)
    (s e : ℤ) :
    (getRoomStatistics bookings totalRooms s e).occupancyRate
      = jsMul
          (jsDiv
            (.val (((statsSelected bookings s e).foldl
              (fun acc b => acc + bookingDays b) 0 : ℤ) : ℚ))
            (.val ((totalRooms : ℚ)
              * ((jsCeilDiv (e - s) msPerDay : ℤ) : ℚ))))
          (.val 100) := rfl

/-- The occupied-days accumulator of `getRoomStatistics`, unfolded. -/
theorem totalOccupiedDays_def (bookings : List StatBooking) (totalRooms : ℕ)
    (s e : ℤ) :
    (getRoomStatistics bookings totalRooms s e).totalOccupiedDays
      = (statsSelected bookings s e).foldl
          (fun acc b => acc + bookingDays b) 0 := rfl

/-- C4 (counterexample): for the empty booking set, one day and zero rooms,
the occupancy rate is `NaN` — `0 / (0 * 1) * 100` with no guard — not `0` as
claimed. -/
theorem c4_counterexample :
    (getRoomStatistics [] 0 0 msPerDay).occupancyRate = .nan
    ∧ (getRoomStatistics [] 0 0 msPerDay).occupancyRate ≠ .val 0 := by
  have h : (getRoomStatistics [] 0 0 msPerDay).occupancyRate = .nan := by
    rw [occupancyRate_def]
    norm_num [statsSelected, jsDiv_val_zero_zero, jsMul_nan_val]
  refine ⟨h, ?_⟩
  rw [h]
  exact fun hc => JSNum.noConfusion hc

/-- C4 (amended): the aggregation never throws, but there is no
division-by-zero guard: whenever `roomCount * periodDays = 0` the occupancy
rate is `NaN` when no days are occupied and `Infinity` when some are, never
`0`; over an empty selection the revenue is exactly `0`, the occupied days
are `0`, and with `roomCount > 0` and `periodDays > 0` the occupancy rate is
exactly `0`. -/
theorem c4_amended_no_guard (bookings : List StatBooking) (totalRooms : ℕ)
    (s e : ℤ) :
    (statsSelected bookings s e = [] →
      (getRoomStatistics bookings totalRooms s e).totalRevenue = .val 0
      ∧ (getRoomStatistics bookings totalRooms s e).totalOccupiedDays = 0)
    ∧ ((totalRooms = 0 ∨ jsCeilDiv (e - s) msPerDay = 0) →
      ((getRoomStatistics bookings totalRooms s e).totalOccupiedDays = 0 →
        (getRoomStatistics bookings totalRooms s e).occupancyRate = .nan)
      ∧ (0 < (getRoomStatistics bookings totalRooms s e).totalOccupiedDays →
        (getRoomStatistics bookings totalRooms s e).occupancyRate = .inf))
    ∧ (0 < totalRooms → 0 < jsCeilDiv (e - s) msPerDay →
      statsSelected bookings s e = [] →
      (getRoomStatistics bookings totalRooms s e).occupancyRate = .val 0) := by
  refine ⟨?_, ?_, ?_⟩
  · intro hsel
    rw [getRoomStatistics]
    simp [hsel]
  · intro hzero
    have hden : ((totalRooms : ℚ) * ((jsCeilDiv (e - s) msPerDay : ℤ) : ℚ))
        = 0 := by
      rcases hzero with h | h <;> simp [h]
    constructor
    · intro hocc
      rw [totalOccupiedDays_def] at hocc
      rw [occupancyRate_def, hden, hocc, Int.cast_zero,
        jsDiv_val_zero_zero, jsMul_nan_val]
    · intro hocc
      rw [totalOccupiedDays_def] at hocc
      have hoccq : (0 : ℚ) <
          (((statsSelected bookings s e).foldl
            (fun acc b => acc + bookingDays b) 0 : ℤ) : ℚ) := by
        exact_mod_cast hocc
      rw [occupancyRate_def, hden, jsDiv_val_pos_zero _ hoccq,
        jsMul_inf_val_pos 100 (by norm_num)]
  · intro hrooms hdays hsel
    have hr : (0 : ℚ) < (totalRooms : ℚ) := by exact_mod_cast hrooms
    have hdq : (0 : ℚ) < ((jsCeilDiv (e - s) msPerDay : ℤ) : ℚ) := by
      exact_mod_cast hdays
    have hden : ((totalRooms : ℚ) * ((jsCeilDiv (e - s) msPerDay : ℤ) : ℚ))
        ≠ 0 := ne_of_gt (mul_pos hr hdq)
    rw [occupancyRate_def, hsel, List.foldl_nil, Int.cast_zero,
      jsDiv_val_val _ _ hden, jsMul]
    norm_num

/-- C4 witness: the amended statement applied concretely — the empty booking
set over one day gives rate `NaN` with zero rooms, and rate `0` and revenue
`0` with one room. -/
theorem c4_amended_no_guard_witness :
    (getRoomStatistics [] 0 0 msPerDay).occupancyRate = .nan
    ∧ (getRoomStatistics [] 1 0 msPerDay).occupancyRate = .val 0
    ∧ (getRoomStatistics [] 1 0 msPerDay).totalRevenue = .val 0 :=
  ⟨((c4_amended_no_guard [] 0 0 msPerDay).2.1 (Or.inl rfl)).1 rfl,
    (c4_amended_no_guard [] 1 0 msPerDay).2.2 (by norm_num) (by decide) rfl,
    ((c4_amended_no_guard [] 1 0 msPerDay).1 rfl).1⟩

/-! ## Ratings (`updateAverageRating` and pre-save hook, room.model.js
251-266; `addRoomRating`, room.controller.js 396-439) -/

/-- `this.ratings.reduce((sum, rating) => sum + rating.score, 0)`. -/
def sumScores (ratings : List Rating) : ℚ :=
  ratings.foldl (fun acc r => acc + r.score) 0

/-- `updateAverageRating`: mean of the scores when ratings exist, else 0. -/
def updateAverageRating (room : Room) : Room :=
  if 0 < room.ratings.length then
    { room with
      averageRating := sumScores room.ratings / (room.ratings.length : ℚ) }
  else
    { room with averageRating := 0 }

/-- The `pre('save')` hook: recompute the average exactly when the ratings
path was modified (`this.isModified('ratings')`). -/
def saveRoom (room : Room) (ratingsModified : Bool) : Room :=
  if ratingsModified then updateAverageRating room else room

/-- `addRoomRating`: rejects a score outside `[1,5]` (`!score` is subsumed
because `0` is already below `1`), rejects a second rating by the same
guest, otherwise pushes the rating and saves — the save marks the ratings
path modified. -/
def addRoomRating (room : Room) (score : ℚ) (guest : ℕ) (now : ℤ) :
    Except RoomError Room :=
  if score < 1 ∨ score > 5 then .error .validation
  else if room.ratings.any fun r => decide (r.guest = guest) then
    .error .validation
  else .ok (saveRoom
    { room with
      ratings := room.ratings ++ [{ score := score, guest := guest,
                                    date := now }] }
    true)

/-- The derived-field invariant: `averageRating` is the arithmetic mean of
the rating scores, and 0 for an empty ratings list. -/
def ratingsInvariant (room : Room) : Prop :=
  room.averageRating =
    if room.ratings.length = 0 then 0
    else sumScores room.ratings / (room.ratings.length : ℚ)

/-- An update payload for `findByIdAndUpdate`, restricted to the fields that
matter for the ratings invariant: a field present in the request body is
written verbatim, an absent field is left alone. -/
structure RoomUpdate where
  ratings : Option (List Rating)
  averageRating : Option ℚ
deriving DecidableEq

/-- `updateRoom` (room.controller.js 123-148) and the per-item body of
`bulkUpdateRooms` (308-366): `Room.findByIdAndUpdate(id, body, ...)` applies
the supplied fields directly as an update query.  The room schema registers
middleware only for `save` (room.model.js 261-266), and `findByIdAndUpdate`
executes without loading the document and does not run save middleware, so
`updateAverageRating` is never invoked on this path. -/
def updateRoom (room : Room) (upd : RoomUpdate) : Room :=
  { room with
    ratings := upd.ratings.getD room.ratings
    averageRating := upd.averageRating.getD room.averageRating }

/-- A request body that pushes a ratings list without touching
`averageRating`. -/
def desyncUpdate : RoomUpdate :=
  { ratings := some [{ score := 1, guest := 9, date := 0 }]
    averageRating := none }

/-- C10 (counterexample): not every room operation keeps `averageRating` in
sync with the ratings list.  `roomCancelledOnly` satisfies the invariant
(no ratings, average 0), but `updateRoom` with a body containing a rating of
score 1 leaves `averageRating` at 0 instead of 1, because
`findByIdAndUpdate` bypasses the `pre('save')` hook. -/
theorem c10_counterexample :
    ratingsInvariant roomCancelledOnly
    ∧ ¬ ratingsInvariant (updateRoom roomCancelledOnly desyncUpdate) := by
  constructor
  · rw [ratingsInvariant]
    norm_num [roomCancelledOnly]
  · rw [ratingsInvariant]
    norm_num [updateRoom, desyncUpdate, roomCancelledOnly, sumScores]

/-- C10 (amended): every save with a modified ratings list re-establishes
the average-rating invariant; in particular `addRoomRating` always returns a
room satisfying it, and the other save-based mutations (seasonal pricing,
discounts, maintenance) leave the ratings list and average untouched, so
they preserve the invariant — but the `findByIdAndUpdate` path of
`updateRoom`/`bulkUpdateRooms` writes the supplied fields verbatim and never
recomputes the average, so it can leave the invariant broken. -/
theorem c10_averageRating_invariant :
    (∀ room : Room, ratingsInvariant (saveRoom room true))
    ∧ (∀ (room : Room) (score : ℚ) (guest : ℕ) (now : ℤ) (room' : Room),
        addRoomRating room score guest now = .ok room' →
        ratingsInvariant room')
    ∧ (∀ (room : Room) (p : SeasonalPricing) (room' : Room),
        addSeasonalPricingRoom room p = .ok room' →
        ratingsInvariant room → ratingsInvariant room')
    ∧ (∀ (room : Room) (d : Discount) (room' : Room),
        addDiscountRoom room d = .ok room' →
        ratingsInvariant room → ratingsInvariant room')
    ∧ (∀ (room : Room) (roomBookings : List Booking) (mtype : String)
        (s e : ℤ) (st : MaintenanceStatus) (room' : Room),
        manageRoomMaintenance room roomBookings mtype s e st = .ok room' →
        ratingsInvariant room → ratingsInvariant room')
    ∧ (∀ (room : Room) (upd : RoomUpdate),
        (updateRoom room upd).ratings = upd.ratings.getD room.ratings
        ∧ (updateRoom room upd).averageRating
            = upd.averageRating.getD room.averageRating) := by
  have hsave : ∀ room : Room, ratingsInvariant (saveRoom room true) := by
    intro room
    rw [saveRoom, if_pos rfl, updateAverageRating]
    by_cases hlen : 0 < room.ratings.length
    · rw [if_pos hlen]
      rw [ratingsInvariant]
      simp only
      rw [if_neg (by omega)]
    · rw [if_neg hlen]
      rw [ratingsInvariant]
      simp only
      rw [if_pos (by omega)]
  refine ⟨hsave, ?_, ?_, ?_, ?_, fun room upd => ⟨rfl, rfl⟩⟩
  · intro room score guest now room' hok
    rw [addRoomRating] at hok
    by_cases hs : score < 1 ∨ score > 5
    · rw [if_pos hs] at hok
      exact Except.noConfusion hok
    · rw [if_neg hs] at hok
      by_cases hg : (room.ratings.any fun r => decide (r.guest = guest))
          = true
      · rw [if_pos hg] at hok
        exact Except.noConfusion hok
      · rw [if_neg hg, Except.ok.injEq] at hok
        subst hok
        exact hsave _
  · intro room p room' hok hinv
    rw [addSeasonalPricingRoom] at hok
    by_cases hov : (room.seasonalPricing.any fun q =>
        overlaps ⟨p.startDate, p.endDate⟩ ⟨q.startDate, q.endDate⟩) = true
    · rw [if_pos hov] at hok
      exact Except.noConfusion hok
    · rw [if_neg hov, Except.ok.injEq] at hok
      subst hok
      exact hinv
  · intro room d room' hok hinv
    rw [addDiscountRoom] at hok
    by_cases hov : (room.discounts.any fun q =>
        decide (q.dtype = d.dtype)
          && overlaps ⟨d.validFrom, d.validUntil⟩
              ⟨q.validFrom, q.validUntil⟩) = true
    · rw [if_pos hov] at hok
      exact Except.noConfusion hok
    · rw [if_neg hov, Except.ok.injEq] at hok
      subst hok
      exact hinv
  · intro room roomBookings mtype s e st room' hok hinv
    rw [manageRoomMaintenance] at hok
    by_cases hm : mtype = ""
    · rw [if_pos hm] at hok
      exact Except.noConfusion hok
    · rw [if_neg hm] at hok
      by_cases hse : s ≥ e
      · rw [if_pos hse] at hok
        exact Except.noConfusion hok
      · rw [if_neg hse] at hok
        by_cases hc : 0 < (conflictingBookings roomBookings s e).length
        · rw [if_pos hc] at hok
          exact Except.noConfusion hok
        · rw [if_neg hc, Except.ok.injEq] at hok
          subst hok
          exact hinv

/-- The room produced by a successful `addRoomRating` on
`roomCancelledOnly` with score 4. -/
def ratedRoom : Room :=
  saveRoom
    { roomCancelledOnly with
      ratings := roomCancelledOnly.ratings
        ++ [{ score := 4, guest := 9, date := 0 }] }
    true

/-- C10 witness: the hook re-establishes the invariant on a concrete room,
and the concrete successful `addRoomRating` run yields a room satisfying
it. -/
theorem c10_averageRating_invariant_witness :
    ratingsInvariant (saveRoom roomCancelledOnly true)
    ∧ ratingsInvariant ratedRoom :=
  ⟨c10_averageRating_invariant.1 roomCancelledOnly,
    c10_averageRating_invariant.2.1 roomCancelledOnly 4 9 0 ratedRoom rfl⟩

end Resort360
